import Mathlib

/-!
Verification of `nb_cli/handlers/store.py`: the mirror-racing registry
fetcher `load_module_data` and the terminal-width-aware column renderer
`format_package_results`, shallowly embedded in Lean.

Python strings are modelled as `List Char` (sequences of code points, so
that slicing `s[:n]` is `List.take n`); machine effects (network, terminal
size) are supplied as explicit inputs.
-/

namespace NbCli

/-! ## Display width, following the wcwidth library -/

/-- Zero-width (combining) character test of the `wcwidth` library,
embedding the main ranges of its zero-width table. -/
abbrev is_zero_width (n : Nat) : Prop :=
  (0x0300 ≤ n ∧ n ≤ 0x036f) ∨ (0x0483 ≤ n ∧ n ≤ 0x0489) ∨
    (0x200b ≤ n ∧ n ≤ 0x200f) ∨ (0x20d0 ≤ n ∧ n ≤ 0x20ff) ∨
    (0xfe00 ≤ n ∧ n ≤ 0xfe0f) ∨ n = 0xfeff

/-- East-Asian wide character test of the `wcwidth` library, embedding the
main ranges of its wide table. -/
abbrev is_wide (n : Nat) : Prop :=
  (0x1100 ≤ n ∧ n ≤ 0x115f) ∨ (0x2e80 ≤ n ∧ n ≤ 0x303e) ∨
    (0x3041 ≤ n ∧ n ≤ 0x33ff) ∨ (0x3400 ≤ n ∧ n ≤ 0x4dbf) ∨
    (0x4e00 ≤ n ∧ n ≤ 0x9fff) ∨ (0xa000 ≤ n ∧ n ≤ 0xa4cf) ∨
    (0xac00 ≤ n ∧ n ≤ 0xd7a3) ∨ (0xf900 ≤ n ∧ n ≤ 0xfaff) ∨
    (0xfe30 ≤ n ∧ n ≤ 0xfe4f) ∨ (0xff00 ≤ n ∧ n ≤ 0xff60) ∨
    (0xffe0 ≤ n ∧ n ≤ 0xffe6) ∨ (0x1f300 ≤ n ∧ n ≤ 0x1f64f) ∨
    (0x20000 ≤ n ∧ n ≤ 0x2fffd) ∨ (0x30000 ≤ n ∧ n ≤ 0x3fffd)

/-- Display width of one character, following the `wcwidth` library:
`0` for NUL, `-1` for other C0/C1 control characters, `0` for zero-width
(combining) characters, `2` for East-Asian wide characters, `1` otherwise. -/
def wcwidth (c : Char) : Int :=
  if c.toNat = 0 then 0
  else if c.toNat < 32 ∨ (0x7f ≤ c.toNat ∧ c.toNat < 0xa0) then -1
  else if is_zero_width c.toNat then 0
  else if is_wide c.toNat then 2
  else 1

/-- Display width of a string, following `wcswidth` of the `wcwidth`
library: `-1` if the string contains a non-printable character, otherwise
the sum of the character widths. -/
def wcswidth : List Char → Int
  | [] => 0
  | c :: cs =>
    if wcwidth c < 0 then -1
    else if wcswidth cs < 0 then -1
    else wcwidth c + wcswidth cs

/-! ## Data model and operations of the registry fetcher -/

/-- A JSON value, as produced by `resp.json()`.  Numbers are modelled as
integers; the distinction between integral and floating JSON numbers plays
no role in the fetcher. -/
inductive Json where
  | null
  | bool (b : Bool)
  | num (n : Int)
  | str (s : String)
  | arr (items : List Json)
  | obj (fields : List (String × Json))

/-- The exceptions one mirror attempt can raise inside the `try` block of
`load_module_data`: a network error from `await future`, a JSON decoding
error from `resp.json()`, a `TypeError` from iterating a non-iterable JSON
value, or a pydantic validation error from `parse_obj`. -/
inductive PyErr where
  | httpError (msg : String)
  | jsonDecodeError (msg : String)
  | typeError (msg : String)
  | validationError (msg : String)
deriving DecidableEq

/-- `class Adapter(SimpleInfo)`: fields `name` and `module_name` inherited
from `SimpleInfo`, plus `project_link` and `desc`. -/
structure Adapter where
  name : String
  module_name : String
  project_link : String
  desc : String
deriving DecidableEq

/-- `class Plugin(SimpleInfo)`, same fields as `Adapter`. -/
structure Plugin where
  name : String
  module_name : String
  project_link : String
  desc : String
deriving DecidableEq

/-- `class Driver(SimpleInfo)`, same fields as `Adapter`. -/
structure Driver where
  name : String
  module_name : String
  project_link : String
  desc : String
deriving DecidableEq

/-- The pydantic model class selected by the `if/elif` chain of
`load_module_data`. -/
inductive ModuleClass where
  | adapterClass
  | pluginClass
  | driverClass
deriving DecidableEq

/-- `getattr(module_class.__config__, "module_name")`. -/
def config_module_name : ModuleClass → String
  | .adapterClass => "adapters"
  | .pluginClass => "plugins"
  | .driverClass => "drivers"

/-- The value of `load_module_data`: one list per model class, mirroring the
return type `Union[List[Adapter], List[Plugin], List[Driver]]`. -/
inductive ModuleList where
  | adapters (records : List Adapter)
  | plugins (records : List Plugin)
  | drivers (records : List Driver)
deriving DecidableEq

/-- The model class a `ModuleList` belongs to. -/
def variant_class : ModuleList → ModuleClass
  | .adapters _ => .adapterClass
  | .plugins _ => .pluginClass
  | .drivers _ => .driverClass

/-- Number of records carried by a `ModuleList`. -/
def record_count : ModuleList → Nat
  | .adapters records => records.length
  | .plugins records => records.length
  | .drivers records => records.length

/-- The errors `load_module_data` itself can raise: the `ValueError` for an
unrecognized module type, and `ModuleLoadFailed` carrying the message and
the collected per-mirror exceptions.  `ModuleLoadFailed` lives in
`nb_cli.exceptions` (outside the embedded file); per the spec it is an
aggregate error carrying the category message and the cause list. -/
inductive LoadError where
  | valueError (msg : String)
  | moduleLoadFailed (msg : String) (causes : List PyErr)
deriving DecidableEq

/-- What one mirror request produced, observed at the `await` of the
`as_completed` loop: the request raised a network error, `resp.json()`
raised a decoding error, or `resp.json()` returned a decoded JSON body. -/
inductive MirrorOutcome where
  | requestFailed (msg : String)
  | jsonDecodeFailed (msg : String)
  | jsonBody (body : Json)

/-- One completed mirror request: the URL it was issued for and its
outcome.  A list of these, in completion order, is the network oracle the
embedded `load_module_data` consumes. -/
structure CompletedRequest where
  url : String
  outcome : MirrorOutcome

/-- pydantic validation of one `str` field: a present string is accepted, a
number is coerced to its decimal string, anything else or a missing key is
a validation error. -/
def get_str_field (fields : List (String × Json)) (key : String) : Except PyErr String :=
  match fields.lookup key with
  | some (.str s) => .ok s
  | some (.num n) => .ok (toString n)
  | some _ => .error (.validationError (key ++ ": str type expected"))
  | none => .error (.validationError (key ++ ": field required"))

/-- pydantic `parse_obj` on the shared field layout of `Adapter`, `Plugin`
and `Driver`: the value must be a JSON object and the four declared fields
are validated in declaration order. -/
def parse_obj_fields (item : Json) : Except PyErr (String × String × String × String) :=
  match item with
  | .obj fields =>
    match get_str_field fields "name" with
    | .error e => .error e
    | .ok n =>
      match get_str_field fields "module_name" with
      | .error e => .error e
      | .ok m =>
        match get_str_field fields "project_link" with
        | .error e => .error e
        | .ok p =>
          match get_str_field fields "desc" with
          | .error e => .error e
          | .ok d => .ok (n, m, p, d)
  | _ => .error (.validationError "value is not a valid dict")

/-- `Adapter.parse_obj(item)`. -/
def Adapter.parse_obj (item : Json) : Except PyErr Adapter :=
  match parse_obj_fields item with
  | .error e => .error e
  | .ok (n, m, p, d) => .ok ⟨n, m, p, d⟩

/-- `Plugin.parse_obj(item)`. -/
def Plugin.parse_obj (item : Json) : Except PyErr Plugin :=
  match parse_obj_fields item with
  | .error e => .error e
  | .ok (n, m, p, d) => .ok ⟨n, m, p, d⟩

/-- `Driver.parse_obj(item)`. -/
def Driver.parse_obj (item : Json) : Except PyErr Driver :=
  match parse_obj_fields item with
  | .error e => .error e
  | .ok (n, m, p, d) => .ok ⟨n, m, p, d⟩

/-- Python iteration over the value returned by `resp.json()`, as performed
by `[... for item in items]`: a JSON array yields its elements, a JSON
object yields its keys, a JSON string yields its one-character substrings,
and any other value raises `TypeError`. -/
def json_iterate : Json → Except PyErr (List Json)
  | .arr items => .ok items
  | .obj fields => .ok (fields.map fun kv => .str kv.1)
  | .str s => .ok (s.data.map fun c => .str (String.singleton c))
  | _ => .error (.typeError "object is not iterable")

/-- Left-to-right effectful map, the semantics of the list comprehension
`[module_class.parse_obj(item) for item in items]`: elements are parsed in
order and the first exception aborts the whole comprehension. -/
def except_mapM (f : α → Except ε β) : List α → Except ε (List β)
  | [] => .ok []
  | x :: xs =>
    match f x with
    | .error e => .error e
    | .ok y =>
      match except_mapM f xs with
      | .error e => .error e
      | .ok ys => .ok (y :: ys)

/-- The body of the `try` block for one completed mirror request:
`resp = await future; items = resp.json();
return [module_class.parse_obj(item) for item in items]`. -/
def parse_response (mc : ModuleClass) : MirrorOutcome → Except PyErr ModuleList
  | .requestFailed msg => .error (.httpError msg)
  | .jsonDecodeFailed msg => .error (.jsonDecodeError msg)
  | .jsonBody body =>
    match json_iterate body with
    | .error e => .error e
    | .ok items =>
      match mc with
      | .adapterClass =>
        match except_mapM Adapter.parse_obj items with
        | .error e => .error e
        | .ok records => .ok (.adapters records)
      | .pluginClass =>
        match except_mapM Plugin.parse_obj items with
        | .error e => .error e
        | .ok records => .ok (.plugins records)
      | .driverClass =>
        match except_mapM Driver.parse_obj items with
        | .error e => .error e
        | .ok records => .ok (.drivers records)

/-- The exception recorded for a completed request whose `try` block failed
(`none` when the request parsed successfully). -/
def parse_error (mc : ModuleClass) (o : MirrorOutcome) : Option PyErr :=
  match parse_response mc o with
  | .ok _ => none
  | .error e => some e

/-- The `if/elif` chain mapping `module_type` to a pydantic model class;
`none` corresponds to reaching the `raise ValueError` branch. -/
def resolve_module_class (module_type : String) : Option ModuleClass :=
  if module_type = "adapter" then some .adapterClass
  else if module_type = "plugin" then some .pluginClass
  else if module_type = "driver" then some .driverClass
  else none

/-- The fixed ordered mirror URL list built from `module_name`. -/
def mirror_urls (module_name : String) : List String :=
  ["https://v2.nonebot.dev/" ++ module_name ++ ".json",
   "https://raw.fastgit.org/nonebot/nonebot2/master/website/static/" ++
     module_name ++ ".json",
   "https://cdn.jsdelivr.net/gh/nonebot/nonebot2/website/static/" ++
     module_name ++ ".json"]

/-- The `for future in as_completed(tasks)` loop: try each completed
request in completion order, return on the first successful parse,
otherwise append the exception to the accumulator and continue; when the
completions are exhausted the accumulated exceptions are the failure. -/
def race_loop (mc : ModuleClass) (exceptions : List PyErr) :
    List CompletedRequest → Except (List PyErr) ModuleList
  | [] => .error exceptions
  | c :: rest =>
    match parse_response mc c.outcome with
    | .ok records => .ok records
    | .error e => race_loop mc (exceptions ++ [e]) rest

/-- The first successfully parsed completion, in completion order. -/
def first_ok (mc : ModuleClass) : List CompletedRequest → Option ModuleList
  | [] => none
  | c :: rest =>
    match parse_response mc c.outcome with
    | .ok records => some records
    | .error _ => first_ok mc rest

/-- `load_module_data`, shallowly embedded.  Network effects are supplied
by `completions`: the outcomes of the mirror requests listed in the order
in which they completed (the order `as_completed` yields them).  The
second component of the result is the list of URLs for which a request
task was created, making "no network I/O happened" observable: the
`raise ValueError` for an unrecognized module type happens before the URL
list is built, so that branch requests nothing.  The translation `_` is
modelled as the identity on the English message. -/
def load_module_data (module_type : String) (completions : List CompletedRequest) :
    Except LoadError ModuleList × List String :=
  match resolve_module_class module_type with
  | none => (.error (.valueError ("Invalid module type: " ++ module_type)), [])
  | some module_class =>
    let urls := mirror_urls (config_module_name module_class)
    match race_loop module_class [] completions with
    | .ok records => (.ok records, urls)
    | .error exceptions =>
      (.error (.moduleLoadFailed ("Failed to get " ++ module_type ++ " list.")
        exceptions), urls)

/-! ## The column renderer -/

/-- The inner `while` loop of the wrapper: starting from the candidate
character count `tmp_length`, decrement it until the prefix of that many
characters has display width at most `target_width`
(`summary[:tmp_length]` slices by characters, hence `List.take`).  The
loop cannot pass below zero because the empty prefix has width `0`, which
is at most the positive `target_width` of the enclosing branch. -/
def trim_length (summary : List Char) (target_width : Int) : Nat → Nat
  | 0 => 0
  | n + 1 =>
    if target_width < wcswidth (summary.take (n + 1)) then
      trim_length summary target_width n
    else n + 1

/-- The outer `while` loop of the wrapper: while the remaining summary is
wider than `target_width`, split off the prefix found by the inner loop
(candidate length `target_width`) and continue on the rest; when the
remainder fits it is appended as the final line.  The loop runs only in
the `target_width > 10` branch of the renderer, which is what makes every
iteration consume at least one character (a single character is at most
two columns wide, so the inner loop never trims to an empty prefix). -/
def wrap_summary (target_width : Int) (h10 : 10 < target_width)
    (summary : List Char) : List (List Char) :=
  if _hw : target_width < wcswidth summary then
    summary.take (trim_length summary target_width target_width.toNat) ::
      wrap_summary target_width h10
        (summary.drop (trim_length summary target_width target_width.toNat))
  else [summary]
termination_by summary.length
decreasing_by
  simp_wf
  have hc2 : ∀ c : Char, wcwidth c ≤ 2 := by
    intro c
    unfold wcwidth
    repeat' split
    all_goals norm_num
  have htake1 : wcswidth (summary.take 1) ≤ 2 := by
    cases summary with
    | nil => norm_num [wcswidth]
    | cons c cs =>
      show wcswidth [c] ≤ 2
      unfold wcswidth
      split
      · norm_num
      · unfold wcswidth
        split
        · norm_num
        · have := hc2 c
          omega
  have htrim : ∀ n, 1 ≤ n → 1 ≤ trim_length summary target_width n := by
    intro n
    induction n with
    | zero => omega
    | succ n ih =>
      intro _
      unfold trim_length
      split
      · rename_i h
        rcases Nat.eq_zero_or_pos n with h0 | h1
        · subst h0
          norm_num at h
          omega
        · exact ih h1
      · omega
  have h1 : 1 ≤ trim_length summary target_width target_width.toNat :=
    htrim target_width.toNat (by omega)
  have h2 : summary ≠ [] := by
    intro he
    subst he
    norm_num [wcswidth] at _hw
    omega
  have h3 : 1 ≤ summary.length := List.length_pos.mpr h2
  omega

/-- Fuel-indexed restatement of the outer wrapping loop, one unit of fuel
per iteration, used to state that the loop terminates. -/
def wrap_summary_fuel (target_width : Int) : Nat → List Char → Option (List (List Char))
  | 0, _ => none
  | fuel + 1, summary =>
    if target_width < wcswidth summary then
      match wrap_summary_fuel target_width fuel
          (summary.drop (trim_length summary target_width target_width.toNat)) with
      | some rest =>
        some (summary.take (trim_length summary target_width target_width.toNat) :: rest)
      | none => none
    else some [summary]

/-- Python `sep.join(parts)`. -/
def join_sep (sep : List Char) : List (List Char) → List Char
  | [] => []
  | [part] => part
  | part :: parts => part ++ sep ++ join_sep sep parts

/-- The bound of the type variable `T` of `format_package_results`: a
record exposing `name`, `project_link` and `desc`, satisfied by `Adapter`,
`Plugin` and `Driver`. -/
class PackageInfo (α : Type) where
  name : α → String
  project_link : α → String
  desc : α → String

instance : PackageInfo Adapter := ⟨Adapter.name, Adapter.project_link, Adapter.desc⟩

instance : PackageInfo Plugin := ⟨Plugin.name, Plugin.project_link, Plugin.desc⟩

instance : PackageInfo Driver := ⟨Driver.name, Driver.project_link, Driver.desc⟩

/-- The label `f"{hit.name} ({hit.project_link})"` of one record. -/
def hit_label {α : Type} [PackageInfo α] (hit : α) : List Char :=
  (PackageInfo.name hit).data ++ (" (").data ++
    (PackageInfo.project_link hit).data ++ (")").data

/-- The summary after the optional wrap-and-indent step of the per-record
loop: when `target_width = terminal_width - name_column_width - 5` exceeds
`10`, wrap the description and join the pieces with a newline plus
`name_column_width + 3` spaces; otherwise the description is left
untouched.  Python string repetition with a non-positive count is the
empty string, hence `Int.toNat`. -/
def rendered_summary (name_column_width terminal_width : Int)
    (desc : List Char) : List Char :=
  if h10 : 10 < terminal_width - name_column_width - 5 then
    join_sep ('\n' :: List.replicate (name_column_width + 3).toNat ' ')
      (wrap_summary (terminal_width - name_column_width - 5) h10 desc)
  else desc

/-- The body of the per-record loop of `format_package_results`: emit the
label padded with spaces to `name_column_width` display width, then
`" - "`, then the (possibly wrapped) summary. -/
def render_line {α : Type} [PackageInfo α] (name_column_width terminal_width : Int)
    (hit : α) : List Char :=
  hit_label hit ++
    List.replicate (name_column_width - wcswidth (hit_label hit)).toNat ' ' ++
    (" - ").data ++
    rendered_summary name_column_width terminal_width (PackageInfo.desc hit).data

/-- `format_package_results`.  `measured_terminal_width` models the
external `shutil.get_terminal_size()[0]` read, consulted only when
`terminal_width` is not supplied. -/
def format_package_results {α : Type} [PackageInfo α] (hits : List α)
    (name_column_width terminal_width : Option Int)
    (measured_terminal_width : Int) : String :=
  match hits with
  | [] => ""
  | _ =>
    let ncw : Int :=
      match name_column_width with
      | some w => w
      | none => ((hits.map fun hit => wcswidth (hit_label hit)).max?.getD 0) + 4
    let tw : Int :=
      match terminal_width with
      | some w => w
      | none => measured_terminal_width
    ⟨join_sep ['\n'] (hits.map (render_line ncw tw))⟩

/-- Modelled from the spec words of claim C4, for comparison with the code:
`line` is the longest prefix of the remaining description `s` whose display
width does not exceed `target_width`.  (`s.take line.length = line` states
that `line` is a prefix of `s`.) -/
def longest_fitting_head (target_width : Int) (s line : List Char) : Prop :=
  s.take line.length = line ∧ wcswidth line ≤ target_width ∧
    ∀ m, m ≤ s.length → wcswidth (s.take m) ≤ target_width → m ≤ line.length

/-! ## Concrete sample data used by the witnesses -/

/-- A JSON object carrying all four required string fields. -/
def sample_item : Json :=
  .obj [("name", .str "OneBot V11"),
        ("module_name", .str "nonebot.adapters.onebot.v11"),
        ("project_link", .str "nonebot-adapter-onebot"),
        ("desc", .str "OneBot V11 protocol")]

/-- The record `sample_item` parses to. -/
def sample_adapter : Adapter :=
  ⟨"OneBot V11", "nonebot.adapters.onebot.v11", "nonebot-adapter-onebot",
   "OneBot V11 protocol"⟩

/-- A JSON object missing every required field but `name`: it fails
validation. -/
def bad_item : Json := .obj [("name", .str "broken")]

/-- A completed request whose body is a valid one-element JSON array. -/
def good_request : CompletedRequest :=
  ⟨"https://v2.nonebot.dev/adapters.json", .jsonBody (.arr [sample_item])⟩

/-- A completed request whose network call failed. -/
def failed_request : CompletedRequest :=
  ⟨"https://raw.fastgit.org/nonebot/nonebot2/master/website/static/adapters.json",
   .requestFailed "connection reset"⟩

/-- A completed request whose body was not decodable JSON. -/
def undecodable_request : CompletedRequest :=
  ⟨"https://cdn.jsdelivr.net/gh/nonebot/nonebot2/website/static/adapters.json",
   .jsonDecodeFailed "Expecting value"⟩

/-- A completed request whose body is a JSON array holding one valid and
one invalid element. -/
def invalid_request : CompletedRequest :=
  ⟨"https://v2.nonebot.dev/adapters.json", .jsonBody (.arr [sample_item, bad_item])⟩

/-- Three completed requests, one per mirror of the adapter category, all
failing. -/
def failing_completions : List CompletedRequest :=
  [invalid_request, failed_request, undecodable_request]

/-- The two records of the worked example of claim C6. -/
def sample_hits : List Adapter :=
  [⟨"a", "adapters", "x", "short"⟩, ⟨"bb", "adapters", "yy", "short"⟩]

/-- The description of the C4 counterexample: 17 combining accents (each
zero columns wide) followed by 17 ASCII letters; its display width is 17. -/
def c4_desc : List Char :=
  List.replicate 17 (Char.ofNat 0x300) ++ List.replicate 17 (Char.ofNat 97)

/-! ## Basic lemmas -/

theorem wcwidth_le_two (c : Char) : wcwidth c ≤ 2 := by
  unfold wcwidth
  repeat' split
  all_goals norm_num

theorem neg_one_le_wcwidth (c : Char) : -1 ≤ wcwidth c := by
  unfold wcwidth
  repeat' split
  all_goals norm_num

theorem neg_one_le_wcswidth (s : List Char) : -1 ≤ wcswidth s := by
  induction s with
  | nil => norm_num [wcswidth]
  | cons c cs ih =>
    unfold wcswidth
    split
    · norm_num
    · split
      · norm_num
      · have := neg_one_le_wcwidth c
        omega

theorem wcswidth_take_one_le_two (s : List Char) : wcswidth (s.take 1) ≤ 2 := by
  cases s with
  | nil => norm_num [wcswidth]
  | cons c cs =>
    show wcswidth [c] ≤ 2
    unfold wcswidth
    split
    · norm_num
    · unfold wcswidth
      split
      · norm_num
      · have := wcwidth_le_two c
        omega

theorem ne_nil_of_wcswidth_pos {s : List Char} (h : 0 < wcswidth s) : s ≠ [] := by
  intro he
  subst he
  simp [wcswidth] at h

theorem trim_length_le (summary : List Char) (target_width : Int) (n : Nat) :
    trim_length summary target_width n ≤ n := by
  induction n with
  | zero => simp [trim_length]
  | succ n ih =>
    unfold trim_length
    split
    · omega
    · omega

theorem trim_length_pos (summary : List Char) (target_width : Int)
    (h2 : wcswidth (summary.take 1) ≤ target_width) :
    ∀ n, 1 ≤ n → 1 ≤ trim_length summary target_width n := by
  intro n
  induction n with
  | zero => omega
  | succ n ih =>
    intro _
    unfold trim_length
    split
    · rename_i h
      rcases Nat.eq_zero_or_pos n with h0 | h1
      · subst h0
        norm_num at h
        omega
      · exact ih h1
    · omega

theorem trim_length_fits (summary : List Char) (target_width : Int)
    (htw : 0 ≤ target_width) (n : Nat) :
    wcswidth (summary.take (trim_length summary target_width n)) ≤ target_width := by
  induction n with
  | zero => simpa [trim_length, wcswidth] using htw
  | succ n ih =>
    unfold trim_length
    split
    · exact ih
    · omega

theorem trim_length_maximal (summary : List Char) (target_width : Int) (n : Nat) :
    ∀ m, trim_length summary target_width n < m → m ≤ n →
      target_width < wcswidth (summary.take m) := by
  induction n with
  | zero => omega
  | succ n ih =>
    intro m h1 h2
    revert h1
    unfold trim_length
    split
    · intro h1
      rcases Nat.lt_or_ge m (n + 1) with hm | hm
      · exact ih m h1 (by omega)
      · have : m = n + 1 := by omega
        subst this
        assumption
    · omega

theorem wrap_summary_step (target_width : Int) (h10 : 10 < target_width)
    (summary : List Char) (hw : target_width < wcswidth summary) :
    wrap_summary target_width h10 summary =
      summary.take (trim_length summary target_width target_width.toNat) ::
        wrap_summary target_width h10
          (summary.drop (trim_length summary target_width target_width.toNat)) := by
  rw [wrap_summary, dif_pos hw]

theorem wrap_summary_last (target_width : Int) (h10 : 10 < target_width)
    (summary : List Char) (hw : ¬ target_width < wcswidth summary) :
    wrap_summary target_width h10 summary = [summary] := by
  rw [wrap_summary, dif_neg hw]

theorem first_ok_cons_ok {mc : ModuleClass} {c : CompletedRequest}
    {records : ModuleList} (rest : List CompletedRequest)
    (h : parse_response mc c.outcome = .ok records) :
    first_ok mc (c :: rest) = some records := by
  simp only [first_ok]
  rw [h]

theorem first_ok_cons_error {mc : ModuleClass} {c : CompletedRequest}
    {e : PyErr} (rest : List CompletedRequest)
    (h : parse_response mc c.outcome = .error e) :
    first_ok mc (c :: rest) = first_ok mc rest := by
  simp only [first_ok]
  rw [h]

theorem race_loop_cons_ok {mc : ModuleClass} {c : CompletedRequest}
    {records : ModuleList} (exceptions : List PyErr) (rest : List CompletedRequest)
    (h : parse_response mc c.outcome = .ok records) :
    race_loop mc exceptions (c :: rest) = .ok records := by
  simp only [race_loop]
  rw [h]

theorem race_loop_cons_error {mc : ModuleClass} {c : CompletedRequest}
    {e : PyErr} (exceptions : List PyErr) (rest : List CompletedRequest)
    (h : parse_response mc c.outcome = .error e) :
    race_loop mc exceptions (c :: rest) = race_loop mc (exceptions ++ [e]) rest := by
  simp only [race_loop]
  rw [h]

theorem race_loop_of_first_ok (mc : ModuleClass) (ml : ModuleList) :
    ∀ (cs : List CompletedRequest), first_ok mc cs = some ml →
      ∀ exceptions, race_loop mc exceptions cs = .ok ml := by
  intro cs
  induction cs with
  | nil => simp [first_ok]
  | cons c rest ih =>
    intro hfo exceptions
    cases hp : parse_response mc c.outcome with
    | ok records =>
      rw [first_ok_cons_ok rest hp] at hfo
      rw [race_loop_cons_ok exceptions rest hp]
      rw [Option.some_inj] at hfo
      rw [hfo]
    | error e =>
      rw [first_ok_cons_error rest hp] at hfo
      rw [race_loop_cons_error exceptions rest hp]
      exact ih hfo (exceptions ++ [e])

theorem race_loop_of_first_ok_none (mc : ModuleClass) :
    ∀ (cs : List CompletedRequest), first_ok mc cs = none →
      ∀ exceptions, race_loop mc exceptions cs =
        .error (exceptions ++ cs.filterMap fun c => parse_error mc c.outcome) := by
  intro cs
  induction cs with
  | nil => simp [first_ok, race_loop]
  | cons c rest ih =>
    intro hfo exceptions
    cases hp : parse_response mc c.outcome with
    | ok records => rw [first_ok_cons_ok rest hp] at hfo; exact absurd hfo (by simp)
    | error e =>
      rw [first_ok_cons_error rest hp] at hfo
      rw [race_loop_cons_error exceptions rest hp]
      rw [ih hfo (exceptions ++ [e])]
      have hpe : parse_error mc c.outcome = some e := by
        unfold parse_error
        rw [hp]
      simp [hpe]

theorem first_ok_isSome_of_mem (mc : ModuleClass) (c : CompletedRequest) :
    ∀ (cs : List CompletedRequest), c ∈ cs →
      (parse_response mc c.outcome).isOk = true →
      ∃ ml, first_ok mc cs = some ml := by
  intro cs
  induction cs with
  | nil => simp
  | cons d rest ih =>
    intro hmem hok
    cases hp : parse_response mc d.outcome with
    | ok records => exact ⟨records, first_ok_cons_ok rest hp⟩
    | error e =>
      rcases List.mem_cons.mp hmem with he | hr
      · subst he
        rw [hp] at hok
        simp [Except.isOk, Except.toBool] at hok
      · rw [first_ok_cons_error rest hp]
        exact ih hr hok

theorem first_ok_spec (mc : ModuleClass) (ml : ModuleList) :
    ∀ (cs : List CompletedRequest), first_ok mc cs = some ml →
      ∃ w ∈ cs, parse_response mc w.outcome = .ok ml := by
  intro cs
  induction cs with
  | nil => simp [first_ok]
  | cons c rest ih =>
    intro hfo
    cases hp : parse_response mc c.outcome with
    | ok records =>
      rw [first_ok_cons_ok rest hp] at hfo
      rw [Option.some_inj] at hfo
      subst hfo
      exact ⟨c, List.mem_cons_self c rest, hp⟩
    | error e =>
      rw [first_ok_cons_error rest hp] at hfo
      rcases ih hfo with ⟨w, hw, hwp⟩
      exact ⟨w, List.mem_cons_of_mem c hw, hwp⟩

theorem first_ok_append_of_fail (mc : ModuleClass) :
    ∀ (pre xs : List CompletedRequest),
      (∀ d ∈ pre, (parse_response mc d.outcome).isOk = false) →
      first_ok mc (pre ++ xs) = first_ok mc xs := by
  intro pre
  induction pre with
  | nil => simp
  | cons d rest ih =>
    intro xs hfail
    have hd : (parse_response mc d.outcome).isOk = false :=
      hfail d (List.mem_cons_self d rest)
    rw [List.cons_append]
    cases hp : parse_response mc d.outcome with
    | ok records => rw [hp] at hd; simp [Except.isOk, Except.toBool] at hd
    | error e =>
      rw [first_ok_cons_error (rest ++ xs) hp]
      exact ih xs fun x hx => hfail x (List.mem_cons_of_mem d hx)

theorem except_mapM_length {α β ε : Type} (f : α → Except ε β) :
    ∀ (xs : List α) (ys : List β), except_mapM f xs = .ok ys →
      ys.length = xs.length := by
  intro xs
  induction xs with
  | nil =>
    intro ys h
    simp [except_mapM] at h
    simp [← h]
  | cons x rest ih =>
    intro ys h
    unfold except_mapM at h
    cases hf : f x with
    | error e => rw [hf] at h; exact absurd h (by simp)
    | ok y =>
      rw [hf] at h
      cases hr : except_mapM f rest with
      | error e => rw [hr] at h; exact absurd h (by simp)
      | ok ys2 =>
        rw [hr] at h
        rw [Except.ok.injEq] at h
        subst h
        simp [ih ys2 hr]

theorem except_mapM_ok_of_all {α β ε : Type} (f : α → Except ε β) :
    ∀ (xs : List α), (∀ x ∈ xs, (f x).isOk = true) →
      ∃ ys, except_mapM f xs = .ok ys ∧ ys.length = xs.length := by
  intro xs
  induction xs with
  | nil => intro _; exact ⟨[], rfl, rfl⟩
  | cons x rest ih =>
    intro hall
    cases hf : f x with
    | error e =>
      have := hall x (List.mem_cons_self x rest)
      rw [hf] at this
      simp [Except.isOk, Except.toBool] at this
    | ok y =>
      rcases ih (fun z hz => hall z (List.mem_cons_of_mem x hz)) with ⟨ys, hys, hlen⟩
      refine ⟨y :: ys, ?_, by simp [hlen]⟩
      unfold except_mapM
      rw [hf, hys]

theorem except_mapM_error_of_mem {α β ε : Type} (f : α → Except ε β) :
    ∀ (xs : List α) (x : α), x ∈ xs → (f x).isOk = false →
      ∃ e, except_mapM f xs = .error e := by
  intro xs
  induction xs with
  | nil => simp
  | cons z rest ih =>
    intro x hmem hbad
    cases hf : f z with
    | error e =>
      refine ⟨e, ?_⟩
      unfold except_mapM
      rw [hf]
    | ok y =>
      rcases List.mem_cons.mp hmem with he | hr
      · subst he
        rw [hf] at hbad
        simp [Except.isOk, Except.toBool] at hbad
      · rcases ih x hr hbad with ⟨e, he⟩
        refine ⟨e, ?_⟩
        unfold except_mapM
        rw [hf, he]

theorem parse_obj_fields_isOk_adapter (item : Json) :
    (Adapter.parse_obj item).isOk = (parse_obj_fields item).isOk := by
  unfold Adapter.parse_obj
  cases h : parse_obj_fields item with
  | ok p => obtain ⟨n, m, q, d⟩ := p; rfl
  | error e => rfl

theorem parse_obj_fields_isOk_plugin (item : Json) :
    (Plugin.parse_obj item).isOk = (parse_obj_fields item).isOk := by
  unfold Plugin.parse_obj
  cases h : parse_obj_fields item with
  | ok p => obtain ⟨n, m, q, d⟩ := p; rfl
  | error e => rfl

theorem parse_obj_fields_isOk_driver (item : Json) :
    (Driver.parse_obj item).isOk = (parse_obj_fields item).isOk := by
  unfold Driver.parse_obj
  cases h : parse_obj_fields item with
  | ok p => obtain ⟨n, m, q, d⟩ := p; rfl
  | error e => rfl

theorem parse_response_variant (mc : ModuleClass) (o : MirrorOutcome)
    (ml : ModuleList) (h : parse_response mc o = .ok ml) :
    variant_class ml = mc := by
  cases o with
  | requestFailed msg => exact absurd h (by simp [parse_response])
  | jsonDecodeFailed msg => exact absurd h (by simp [parse_response])
  | jsonBody body =>
    simp only [parse_response] at h
    split at h
    · exact absurd h (by simp)
    · split at h
      · split at h
        · exact absurd h (by simp)
        · rw [Except.ok.injEq] at h
          rw [← h]
          rfl
      · split at h
        · exact absurd h (by simp)
        · rw [Except.ok.injEq] at h
          rw [← h]
          rfl
      · split at h
        · exact absurd h (by simp)
        · rw [Except.ok.injEq] at h
          rw [← h]
          rfl

theorem parse_response_ok_of_valid_array (mc : ModuleClass) (items : List Json)
    (hval : ∀ item ∈ items, (parse_obj_fields item).isOk = true) :
    ∃ ml, parse_response mc (.jsonBody (.arr items)) = .ok ml ∧
      record_count ml = items.length := by
  cases mc with
  | adapterClass =>
    rcases except_mapM_ok_of_all Adapter.parse_obj items
        (fun item h => by rw [parse_obj_fields_isOk_adapter]; exact hval item h) with
      ⟨ys, hys, hlen⟩
    refine ⟨.adapters ys, ?_, hlen⟩
    simp only [parse_response, json_iterate]
    rw [hys]
  | pluginClass =>
    rcases except_mapM_ok_of_all Plugin.parse_obj items
        (fun item h => by rw [parse_obj_fields_isOk_plugin]; exact hval item h) with
      ⟨ys, hys, hlen⟩
    refine ⟨.plugins ys, ?_, hlen⟩
    simp only [parse_response, json_iterate]
    rw [hys]
  | driverClass =>
    rcases except_mapM_ok_of_all Driver.parse_obj items
        (fun item h => by rw [parse_obj_fields_isOk_driver]; exact hval item h) with
      ⟨ys, hys, hlen⟩
    refine ⟨.drivers ys, ?_, hlen⟩
    simp only [parse_response, json_iterate]
    rw [hys]

theorem parse_response_error_of_bad_item (mc : ModuleClass) (items : List Json)
    (bad : Json) (hmem : bad ∈ items) (hbad : (parse_obj_fields bad).isOk = false) :
    ∃ e, parse_response mc (.jsonBody (.arr items)) = .error e := by
  cases mc with
  | adapterClass =>
    rcases except_mapM_error_of_mem Adapter.parse_obj items bad hmem
        (by rw [parse_obj_fields_isOk_adapter]; exact hbad) with ⟨e, he⟩
    refine ⟨e, ?_⟩
    simp only [parse_response, json_iterate]
    rw [he]
  | pluginClass =>
    rcases except_mapM_error_of_mem Plugin.parse_obj items bad hmem
        (by rw [parse_obj_fields_isOk_plugin]; exact hbad) with ⟨e, he⟩
    refine ⟨e, ?_⟩
    simp only [parse_response, json_iterate]
    rw [he]
  | driverClass =>
    rcases except_mapM_error_of_mem Driver.parse_obj items bad hmem
        (by rw [parse_obj_fields_isOk_driver]; exact hbad) with ⟨e, he⟩
    refine ⟨e, ?_⟩
    simp only [parse_response, json_iterate]
    rw [he]

theorem load_module_data_ok (module_type : String) (mc : ModuleClass)
    (hres : resolve_module_class module_type = some mc)
    (completions : List CompletedRequest) (ml : ModuleList)
    (hrace : race_loop mc [] completions = .ok ml) :
    load_module_data module_type completions =
      (.ok ml, mirror_urls (config_module_name mc)) := by
  simp only [load_module_data, hres, hrace]

theorem load_module_data_error (module_type : String) (mc : ModuleClass)
    (hres : resolve_module_class module_type = some mc)
    (completions : List CompletedRequest) (exceptions : List PyErr)
    (hrace : race_loop mc [] completions = .error exceptions) :
    load_module_data module_type completions =
      (.error (.moduleLoadFailed ("Failed to get " ++ module_type ++ " list.")
        exceptions), mirror_urls (config_module_name mc)) := by
  simp only [load_module_data, hres, hrace]

theorem first_ok_none_of_all_fail (mc : ModuleClass) :
    ∀ (cs : List CompletedRequest),
      (∀ c ∈ cs, (parse_response mc c.outcome).isOk = false) →
      first_ok mc cs = none := by
  intro cs
  induction cs with
  | nil => intro _; rfl
  | cons c rest ih =>
    intro hfail
    cases hp : parse_response mc c.outcome with
    | ok records =>
      have := hfail c (List.mem_cons_self c rest)
      rw [hp] at this
      simp [Except.isOk, Except.toBool] at this
    | error e =>
      rw [first_ok_cons_error rest hp]
      exact ih fun d hd => hfail d (List.mem_cons_of_mem c hd)

theorem parse_error_isSome_of_fail (mc : ModuleClass) (o : MirrorOutcome)
    (h : (parse_response mc o).isOk = false) : (parse_error mc o).isSome = true := by
  unfold parse_error
  cases hp : parse_response mc o with
  | ok records => rw [hp] at h; simp [Except.isOk, Except.toBool] at h
  | error e => rfl

theorem filterMap_length_of_all_isSome {α β : Type} (f : α → Option β) :
    ∀ (xs : List α), (∀ x ∈ xs, (f x).isSome = true) →
      (xs.filterMap f).length = xs.length := by
  intro xs
  induction xs with
  | nil => intro _; rfl
  | cons x rest ih =>
    intro hall
    cases hf : f x with
    | none =>
      have := hall x (List.mem_cons_self x rest)
      rw [hf] at this
      simp at this
    | some y =>
      have hr := ih fun z hz => hall z (List.mem_cons_of_mem x hz)
      simp only [List.filterMap_cons, hf, List.length_cons, hr]

theorem parse_response_array_count (mc : ModuleClass) (warr : List Json)
    (ml : ModuleList) (h : parse_response mc (.jsonBody (.arr warr)) = .ok ml) :
    record_count ml = warr.length := by
  cases mc with
  | adapterClass =>
    simp only [parse_response, json_iterate] at h
    split at h
    · exact absurd h (by simp)
    · rw [Except.ok.injEq] at h
      rw [← h]
      rename_i xs hm
      simp only [record_count]
      exact except_mapM_length _ warr xs hm
  | pluginClass =>
    simp only [parse_response, json_iterate] at h
    split at h
    · exact absurd h (by simp)
    · rw [Except.ok.injEq] at h
      rw [← h]
      rename_i xs hm
      simp only [record_count]
      exact except_mapM_length _ warr xs hm
  | driverClass =>
    simp only [parse_response, json_iterate] at h
    split at h
    · exact absurd h (by simp)
    · rw [Except.ok.injEq] at h
      rw [← h]
      rename_i xs hm
      simp only [record_count]
      exact except_mapM_length _ warr xs hm

theorem rendered_summary_narrow (name_column_width terminal_width : Int)
    (desc : List Char) (h : ¬ 10 < terminal_width - name_column_width - 5) :
    rendered_summary name_column_width terminal_width desc = desc := by
  unfold rendered_summary
  rw [dif_neg h]

theorem rendered_summary_wide (name_column_width terminal_width : Int)
    (desc : List Char) (h : 10 < terminal_width - name_column_width - 5) :
    rendered_summary name_column_width terminal_width desc =
      join_sep ('\n' :: List.replicate (name_column_width + 3).toNat ' ')
        (wrap_summary (terminal_width - name_column_width - 5) h desc) := by
  unfold rendered_summary
  rw [dif_pos h]

theorem rendered_summary_of_fits (name_column_width terminal_width : Int)
    (desc : List Char)
    (hfits : wcswidth desc ≤ terminal_width - name_column_width - 5) :
    rendered_summary name_column_width terminal_width desc = desc := by
  by_cases h : 10 < terminal_width - name_column_width - 5
  · rw [rendered_summary_wide name_column_width terminal_width desc h]
    rw [wrap_summary_last _ h desc (by omega)]
    rfl
  · exact rendered_summary_narrow name_column_width terminal_width desc h

theorem wrap_summary_fuel_complete (target_width : Int) (h10 : 10 < target_width) :
    ∀ (fuel : Nat) (s : List Char), s.length < fuel →
      wrap_summary_fuel target_width fuel s =
        some (wrap_summary target_width h10 s) := by
  intro fuel
  induction fuel with
  | zero => intro s h; omega
  | succ fuel ih =>
    intro s h
    by_cases hw : target_width < wcswidth s
    · have hk : 1 ≤ trim_length s target_width target_width.toNat :=
        trim_length_pos s target_width
          (le_trans (wcswidth_take_one_le_two s) (by omega))
          target_width.toNat (by omega)
      have hs : s ≠ [] := ne_nil_of_wcswidth_pos (by omega)
      have hlen : (s.drop (trim_length s target_width target_width.toNat)).length <
          s.length := by
        rw [List.length_drop]
        have := List.length_pos.mpr hs
        omega
      rw [wrap_summary_step target_width h10 s hw]
      simp only [wrap_summary_fuel, if_pos hw]
      rw [ih _ (by omega)]
    · rw [wrap_summary_last target_width h10 s hw]
      simp only [wrap_summary_fuel, if_neg hw]

theorem wrap_summary_concat (target_width : Int) (h10 : 10 < target_width) :
    ∀ (n : Nat) (s : List Char), s.length ≤ n →
      (wrap_summary target_width h10 s).foldr List.append [] = s := by
  intro n
  induction n with
  | zero =>
    intro s h
    have hs : s = [] := List.length_eq_zero.mp (by omega)
    subst hs
    rw [wrap_summary_last target_width h10 [] (by norm_num [wcswidth]; omega)]
    rfl
  | succ n ih =>
    intro s h
    by_cases hw : target_width < wcswidth s
    · have hk : 1 ≤ trim_length s target_width target_width.toNat :=
        trim_length_pos s target_width
          (le_trans (wcswidth_take_one_le_two s) (by omega))
          target_width.toNat (by omega)
      have hs : s ≠ [] := ne_nil_of_wcswidth_pos (by omega)
      have hpos := List.length_pos.mpr hs
      rw [wrap_summary_step target_width h10 s hw]
      have hdrop : (s.drop (trim_length s target_width target_width.toNat)).length ≤ n := by
        rw [List.length_drop]
        omega
      simp only [List.foldr_cons]
      rw [ih _ hdrop]
      exact List.take_append_drop _ s
    · rw [wrap_summary_last target_width h10 s hw]
      simp only [List.foldr_cons, List.foldr_nil]
      exact List.append_nil s

/-! ## The claims -/

/-- C1: for every category in the recognized set (a module type that
resolves to a model class), if at least one completed mirror request has a
body that decodes as a JSON array in which every element validates against
the target record variant, then `load_module_data` succeeds: it returns
the parse of the first successfully parsed completion, of the variant
matching the category, with one record per element of the winning array —
hence non-empty whenever the winning array is non-empty. -/
theorem C1_fetch_success (module_type : String) (mc : ModuleClass)
    (hres : resolve_module_class module_type = some mc)
    (completions : List CompletedRequest) (c : CompletedRequest)
    (hmem : c ∈ completions) (items : List Json)
    (hbody : c.outcome = .jsonBody (.arr items))
    (hval : ∀ item ∈ items, (parse_obj_fields item).isOk = true) :
    ∃ ml, (load_module_data module_type completions).1 = .ok ml ∧
      first_ok mc completions = some ml ∧
      variant_class ml = mc ∧
      ∃ w ∈ completions, parse_response mc w.outcome = .ok ml ∧
        ∀ warr, w.outcome = .jsonBody (.arr warr) →
          record_count ml = warr.length := by
  rcases parse_response_ok_of_valid_array mc items hval with ⟨mlc, hcok, _⟩
  have hcok2 : parse_response mc c.outcome = .ok mlc := by rw [hbody]; exact hcok
  have hisok : (parse_response mc c.outcome).isOk = true := by rw [hcok2]; rfl
  rcases first_ok_isSome_of_mem mc c completions hmem hisok with ⟨ml, hfo⟩
  have hload := load_module_data_ok module_type mc hres completions ml
    (race_loop_of_first_ok mc ml completions hfo [])
  rcases first_ok_spec mc ml completions hfo with ⟨w, hwmem, hwok⟩
  refine ⟨ml, by rw [hload], hfo, parse_response_variant mc w.outcome ml hwok,
    w, hwmem, hwok, ?_⟩
  intro warr hwarr
  rw [hwarr] at hwok
  exact parse_response_array_count mc warr ml hwok

/-- Witness for C1: the adapter category with one mirror returning a valid
one-element array. -/
theorem C1_fetch_success_witness :
    resolve_module_class "adapter" = some .adapterClass ∧
    good_request ∈ [good_request] ∧
    (∀ item ∈ [sample_item], (parse_obj_fields item).isOk = true) ∧
    ∃ ml, (load_module_data "adapter" [good_request]).1 = .ok ml ∧
      first_ok .adapterClass [good_request] = some ml ∧
      variant_class ml = .adapterClass ∧
      ∃ w ∈ [good_request], parse_response .adapterClass w.outcome = .ok ml ∧
        ∀ warr, w.outcome = .jsonBody (.arr warr) →
          record_count ml = warr.length :=
  ⟨by decide, List.mem_cons_self _ _, by decide,
   C1_fetch_success "adapter" .adapterClass (by decide) [good_request]
     good_request (List.mem_cons_self _ _) [sample_item] rfl (by decide)⟩

/-- C2: for every recognized category, when the completed requests cover
the three mirror URLs (one completion per mirror) and every one of them
fails (network error, undecodable body, or schema-invalid data),
`load_module_data` fails with `ModuleLoadFailed` whose cause list collects
the recorded exception of each completion in completion order — exactly
three causes, one per mirror, preserving each failure detail. -/
theorem C2_all_mirrors_fail (module_type : String) (mc : ModuleClass)
    (hres : resolve_module_class module_type = some mc)
    (completions : List CompletedRequest)
    (hurls : (completions.map CompletedRequest.url).Perm
      (mirror_urls (config_module_name mc)))
    (hfail : ∀ c ∈ completions, (parse_response mc c.outcome).isOk = false) :
    (load_module_data module_type completions).1 =
      .error (.moduleLoadFailed ("Failed to get " ++ module_type ++ " list.")
        (completions.filterMap fun c => parse_error mc c.outcome)) ∧
    (completions.filterMap fun c => parse_error mc c.outcome).length = 3 := by
  have hnone : first_ok mc completions = none :=
    first_ok_none_of_all_fail mc completions hfail
  have hrace := race_loop_of_first_ok_none mc completions hnone []
  rw [List.nil_append] at hrace
  have hload := load_module_data_error module_type mc hres completions _ hrace
  have hlen : (completions.filterMap fun c => parse_error mc c.outcome).length =
      completions.length :=
    filterMap_length_of_all_isSome _ completions
      (fun c hc => parse_error_isSome_of_fail mc c.outcome (hfail c hc))
  have hthree : completions.length = 3 := by
    have h3 := hurls.length_eq
    rw [List.length_map] at h3
    simpa [mirror_urls] using h3
  exact ⟨by rw [hload], by rw [hlen, hthree]⟩

/-- Witness for C2: three failing completions, one per adapter mirror. -/
theorem C2_all_mirrors_fail_witness :
    (failing_completions.map CompletedRequest.url).Perm
      (mirror_urls (config_module_name .adapterClass)) ∧
    (∀ c ∈ failing_completions,
      (parse_response .adapterClass c.outcome).isOk = false) ∧
    ((load_module_data "adapter" failing_completions).1 =
      .error (.moduleLoadFailed ("Failed to get " ++ "adapter" ++ " list.")
        (failing_completions.filterMap fun c =>
          parse_error .adapterClass c.outcome)) ∧
    (failing_completions.filterMap fun c =>
      parse_error .adapterClass c.outcome).length = 3) :=
  ⟨(show failing_completions.map CompletedRequest.url =
      mirror_urls (config_module_name .adapterClass) by decide) ▸
      List.Perm.refl _,
   by decide,
   C2_all_mirrors_fail "adapter" .adapterClass (by decide) failing_completions
     ((show failing_completions.map CompletedRequest.url =
        mirror_urls (config_module_name .adapterClass) by decide) ▸
        List.Perm.refl _)
     (by decide)⟩

/-- C3: the mirror requests being concurrent, the record list returned by
the fetcher is the parse of the completion that finishes first among those
that parse successfully — completion order, not the order of the declared
URL list (the preceding completions `pre` here are arbitrary failing
requests) — and after that first success the remaining in-flight requests
are not awaited: the result is identical for any tail of outstanding
completions. -/
theorem C3_completion_order_wins (module_type : String) (mc : ModuleClass)
    (hres : resolve_module_class module_type = some mc)
    (pre rest rest2 : List CompletedRequest) (w : CompletedRequest)
    (ml : ModuleList)
    (hpre : ∀ c ∈ pre, (parse_response mc c.outcome).isOk = false)
    (hw : parse_response mc w.outcome = .ok ml) :
    (load_module_data module_type (pre ++ w :: rest)).1 = .ok ml ∧
    load_module_data module_type (pre ++ w :: rest) =
      load_module_data module_type (pre ++ w :: rest2) := by
  have hfo : ∀ tail, first_ok mc (pre ++ w :: tail) = some ml := by
    intro tail
    rw [first_ok_append_of_fail mc pre (w :: tail) hpre]
    exact first_ok_cons_ok tail hw
  have hload1 := load_module_data_ok module_type mc hres (pre ++ w :: rest) ml
    (race_loop_of_first_ok mc ml _ (hfo rest) [])
  have hload2 := load_module_data_ok module_type mc hres (pre ++ w :: rest2) ml
    (race_loop_of_first_ok mc ml _ (hfo rest2) [])
  exact ⟨by rw [hload1], by rw [hload1, hload2]⟩

/-- Witness for C3: a failing completion arrives first, the valid mirror
second; the tail of outstanding completions does not matter. -/
theorem C3_completion_order_wins_witness :
    (∀ c ∈ [failed_request], (parse_response .adapterClass c.outcome).isOk = false) ∧
    parse_response .adapterClass good_request.outcome =
      .ok (.adapters [sample_adapter]) ∧
    ((load_module_data "adapter"
        ([failed_request] ++ good_request :: [undecodable_request])).1 =
      .ok (.adapters [sample_adapter]) ∧
    load_module_data "adapter"
        ([failed_request] ++ good_request :: [undecodable_request]) =
      load_module_data "adapter" ([failed_request] ++ good_request :: [])) :=
  ⟨by decide, rfl,
   C3_completion_order_wins "adapter" .adapterClass (by decide)
     [failed_request] [undecodable_request] [] good_request
     (.adapters [sample_adapter]) (by decide) rfl⟩

/-- C7: for every input string that is not one of the three recognized
categories, `load_module_data` fails immediately with the invalid-category
`ValueError` and performs no network I/O: the list of requested URLs is
empty (the `raise` happens before the URL list is built) and the result
does not depend on the network oracle at all. -/
theorem C7_invalid_category (module_type : String)
    (h1 : module_type ≠ "adapter") (h2 : module_type ≠ "plugin")
    (h3 : module_type ≠ "driver")
    (completions completions2 : List CompletedRequest) :
    load_module_data module_type completions =
      (.error (.valueError ("Invalid module type: " ++ module_type)), []) ∧
    load_module_data module_type completions =
      load_module_data module_type completions2 := by
  have hres : resolve_module_class module_type = none := by
    unfold resolve_module_class
    rw [if_neg h1, if_neg h2, if_neg h3]
  have he : ∀ cs : List CompletedRequest, load_module_data module_type cs =
      (.error (.valueError ("Invalid module type: " ++ module_type)), []) := by
    intro cs
    simp only [load_module_data, hres]
  exact ⟨he completions, by rw [he completions, he completions2]⟩

/-- Witness for C7: the unrecognized category string "model". -/
theorem C7_invalid_category_witness :
    "model" ≠ "adapter" ∧ "model" ≠ "plugin" ∧ "model" ≠ "driver" ∧
    (load_module_data "model" failing_completions =
      (.error (.valueError ("Invalid module type: " ++ "model")), []) ∧
    load_module_data "model" failing_completions =
      load_module_data "model" []) :=
  ⟨by decide, by decide, by decide,
   C7_invalid_category "model" (by decide) (by decide) (by decide)
     failing_completions []⟩

/-- C8: for every mirror whose response decodes as a JSON array containing
at least one element that fails validation, the whole response of that
mirror is discarded: its parse yields an error (so none of its elements is
ever returned), the error is recorded, and the fetch continues with the
remaining completions — when a later completion parses successfully the
result is exactly as if the bad mirror had not completed at all, and when
everything fails the recorded error surfaces only inside the aggregate
cause list of `ModuleLoadFailed`. -/
theorem C8_invalid_element_discards_mirror (module_type : String)
    (mc : ModuleClass) (hres : resolve_module_class module_type = some mc)
    (items : List Json) (bad : Json) (hmem : bad ∈ items)
    (hbad : (parse_obj_fields bad).isOk = false)
    (url : String) (pre post : List CompletedRequest)
    (hpre : ∀ d ∈ pre, (parse_response mc d.outcome).isOk = false) :
    ∃ e, parse_response mc (.jsonBody (.arr items)) = .error e ∧
      (∀ ml, first_ok mc post = some ml →
        (load_module_data module_type
            (pre ++ (⟨url, .jsonBody (.arr items)⟩ : CompletedRequest) :: post)).1 =
          .ok ml ∧
        (load_module_data module_type (pre ++ post)).1 = .ok ml) ∧
      (first_ok mc post = none →
        (load_module_data module_type
            (pre ++ (⟨url, .jsonBody (.arr items)⟩ : CompletedRequest) :: post)).1 =
          .error (.moduleLoadFailed ("Failed to get " ++ module_type ++ " list.")
            (((pre ++ (⟨url, .jsonBody (.arr items)⟩ : CompletedRequest) :: post)).filterMap
              fun c => parse_error mc c.outcome)) ∧
        e ∈ ((pre ++ (⟨url, .jsonBody (.arr items)⟩ : CompletedRequest) :: post)).filterMap
          (fun c => parse_error mc c.outcome)) := by
  rcases parse_response_error_of_bad_item mc items bad hmem hbad with ⟨e, he⟩
  have hmid : parse_response mc
      ((⟨url, .jsonBody (.arr items)⟩ : CompletedRequest)).outcome = .error e := he
  refine ⟨e, he, ?_, ?_⟩
  · intro ml hml
    constructor
    · have hfo : first_ok mc
          (pre ++ (⟨url, .jsonBody (.arr items)⟩ : CompletedRequest) :: post) =
          some ml := by
        rw [first_ok_append_of_fail mc pre _ hpre,
          first_ok_cons_error post hmid, hml]
      rw [load_module_data_ok module_type mc hres _ ml
        (race_loop_of_first_ok mc ml _ hfo [])]
    · have hfo2 : first_ok mc (pre ++ post) = some ml := by
        rw [first_ok_append_of_fail mc pre post hpre, hml]
      rw [load_module_data_ok module_type mc hres _ ml
        (race_loop_of_first_ok mc ml _ hfo2 [])]
  · intro hnone
    have hfo : first_ok mc
        (pre ++ (⟨url, .jsonBody (.arr items)⟩ : CompletedRequest) :: post) =
        none := by
      rw [first_ok_append_of_fail mc pre _ hpre,
        first_ok_cons_error post hmid, hnone]
    have hrace := race_loop_of_first_ok_none mc _ hfo []
    rw [List.nil_append] at hrace
    refine ⟨by rw [load_module_data_error module_type mc hres _ _ hrace], ?_⟩
    rw [List.mem_filterMap]
    refine ⟨⟨url, .jsonBody (.arr items)⟩,
      List.mem_append_right pre (List.mem_cons_self _ _), ?_⟩
    unfold parse_error
    rw [hmid]

/-- Witness for C8: an adapter mirror answering a two-element array whose
second element is invalid, after one failed completion and before one
valid completion. -/
theorem C8_invalid_element_discards_mirror_witness :
    bad_item ∈ [sample_item, bad_item] ∧
    (parse_obj_fields bad_item).isOk = false ∧
    (∀ d ∈ [failed_request], (parse_response .adapterClass d.outcome).isOk = false) ∧
    ∃ e, parse_response .adapterClass (.jsonBody (.arr [sample_item, bad_item])) =
        .error e ∧
      (∀ ml, first_ok .adapterClass [good_request] = some ml →
        (load_module_data "adapter"
            ([failed_request] ++
              (⟨"https://v2.nonebot.dev/adapters.json",
                .jsonBody (.arr [sample_item, bad_item])⟩ : CompletedRequest) ::
              [good_request])).1 = .ok ml ∧
        (load_module_data "adapter" ([failed_request] ++ [good_request])).1 =
          .ok ml) ∧
      (first_ok .adapterClass [good_request] = none →
        (load_module_data "adapter"
            ([failed_request] ++
              (⟨"https://v2.nonebot.dev/adapters.json",
                .jsonBody (.arr [sample_item, bad_item])⟩ : CompletedRequest) ::
              [good_request])).1 =
          .error (.moduleLoadFailed ("Failed to get " ++ "adapter" ++ " list.")
            ((([failed_request] ++
              (⟨"https://v2.nonebot.dev/adapters.json",
                .jsonBody (.arr [sample_item, bad_item])⟩ : CompletedRequest) ::
              [good_request])).filterMap
                fun c => parse_error .adapterClass c.outcome)) ∧
        e ∈ (([failed_request] ++
              (⟨"https://v2.nonebot.dev/adapters.json",
                .jsonBody (.arr [sample_item, bad_item])⟩ : CompletedRequest) ::
              [good_request])).filterMap
                (fun c => parse_error .adapterClass c.outcome)) :=
  ⟨List.mem_cons_of_mem _ (List.mem_cons_self _ _), by decide, by decide,
   C8_invalid_element_discards_mirror "adapter" .adapterClass (by decide)
     [sample_item, bad_item] bad_item
     (List.mem_cons_of_mem _ (List.mem_cons_self _ _)) (by decide)
     "https://v2.nonebot.dev/adapters.json" [failed_request] [good_request]
     (by decide)⟩

/-- C5: for every record the renderer computes
`target_width = terminal_width - name_column_width - 5`, and whenever that
target is at most 10 the description is emitted unwrapped, verbatim on the
same line as the label, regardless of its length. -/
theorem C5_narrow_target_no_wrap {α : Type} [PackageInfo α]
    (name_column_width terminal_width : Int) (hit : α)
    (hnarrow : terminal_width - name_column_width - 5 ≤ 10) :
    render_line name_column_width terminal_width hit =
      hit_label hit ++
        List.replicate (name_column_width - wcswidth (hit_label hit)).toNat ' ' ++
        (" - ").data ++ (PackageInfo.desc hit).data := by
  unfold render_line
  rw [rendered_summary_narrow _ _ _ (by omega)]

/-- Witness for C5: name column 30 in an 40-column terminal gives target
width 5, and a 19-character description stays on the label line. -/
theorem C5_narrow_target_no_wrap_witness :
    (40:Int) - 30 - 5 ≤ 10 ∧
    render_line 30 40 sample_adapter =
      hit_label sample_adapter ++
        List.replicate ((30:Int) - wcswidth (hit_label sample_adapter)).toNat ' ' ++
        (" - ").data ++ (PackageInfo.desc sample_adapter).data :=
  ⟨by norm_num, C5_narrow_target_no_wrap 30 40 sample_adapter (by norm_num)⟩

/-- C9: a record whose label display width exceeds `name_column_width` is
not truncated and raises no error: the computed padding count is
non-positive, so the padding is empty, the full label begins the emitted
line, and the line simply overflows its column. -/
theorem C9_overflowing_label_not_truncated {α : Type} [PackageInfo α]
    (name_column_width terminal_width : Int) (hit : α)
    (hover : name_column_width < wcswidth (hit_label hit)) :
    render_line name_column_width terminal_width hit =
      hit_label hit ++ (" - ").data ++
        rendered_summary name_column_width terminal_width
          (PackageInfo.desc hit).data := by
  unfold render_line
  rw [Int.toNat_of_nonpos (by omega), List.replicate_zero, List.append_nil]

set_option maxRecDepth 16384 in
/-- Witness for C9: a 36-column label against a 3-column name column. -/
theorem C9_overflowing_label_not_truncated_witness :
    (3:Int) < wcswidth (hit_label sample_adapter) ∧
    render_line 3 100 sample_adapter =
      hit_label sample_adapter ++ (" - ").data ++
        rendered_summary 3 100 (PackageInfo.desc sample_adapter).data :=
  ⟨by decide, C9_overflowing_label_not_truncated 3 100 sample_adapter (by decide)⟩

/-- C10: for every description string and every target width greater than
10 the wrapping loop terminates: the inner trimming loop stops at a prefix
length of at least one (a single character occupies at most two columns,
which cannot exceed a target width above 10, and a prefix containing a
non-printable character measures -1, i.e. as fitting), each outer
iteration strictly shortens the remaining description, and the loop run
with one unit of fuel per character plus one finishes with the same lines
as the recursive definition. -/
theorem C10_wrap_loop_terminates (target_width : Int) (h10 : 10 < target_width)
    (s : List Char) :
    (target_width < wcswidth s →
      1 ≤ trim_length s target_width target_width.toNat ∧
      (s.drop (trim_length s target_width target_width.toNat)).length <
        s.length) ∧
    wrap_summary_fuel target_width (s.length + 1) s =
      some (wrap_summary target_width h10 s) := by
  constructor
  · intro hw
    have hk : 1 ≤ trim_length s target_width target_width.toNat :=
      trim_length_pos s target_width
        (le_trans (wcswidth_take_one_le_two s) (by omega))
        target_width.toNat (by omega)
    have hs := List.length_pos.mpr
      (ne_nil_of_wcswidth_pos (show 0 < wcswidth s by omega))
    exact ⟨hk, by rw [List.length_drop]; omega⟩
  · exact wrap_summary_fuel_complete target_width h10 (s.length + 1) s (by omega)

/-- Witness for C10: target width 16 on the 34-character sample
description. -/
theorem C10_wrap_loop_terminates_witness :
    (10:Int) < 16 ∧
    (((16:Int) < wcswidth c4_desc →
      1 ≤ trim_length c4_desc 16 (16:Int).toNat ∧
      (c4_desc.drop (trim_length c4_desc 16 (16:Int).toNat)).length <
        c4_desc.length) ∧
    wrap_summary_fuel 16 (c4_desc.length + 1) c4_desc =
      some (wrap_summary 16 (by norm_num) c4_desc)) :=
  ⟨by norm_num, C10_wrap_loop_terminates 16 (by norm_num) c4_desc⟩

set_option maxRecDepth 16384 in
/-- Counterexample to C4 as stated: with target width 16 and a description
starting with 17 zero-width combining characters, the first wrapped line
is the 16-character prefix found by the trimming loop, but it is not the
longest prefix of the description whose display width fits: the 33
character prefix also fits within 16 columns.  The loop only examines
prefixes of at most `target_width` characters. -/
theorem C4_longest_fit_counterexample :
    ∃ line, (wrap_summary 16 (by norm_num) c4_desc).head? = some line ∧
      ¬ longest_fitting_head 16 c4_desc line := by
  refine ⟨c4_desc.take (trim_length c4_desc 16 (16:Int).toNat), ?_, ?_⟩
  · rw [wrap_summary_step 16 (by norm_num) c4_desc (by decide)]
    rfl
  · intro hlf
    have h33 := hlf.2.2 33 (by decide) (by decide)
    exact absurd h33 (by decide)

/-- C4 amended: for every description wider than the target width (which
exceeds 10), the renderer splits greedily: each step splits off the
longest prefix among those of at most `target_width` characters whose
display width does not exceed `target_width` (the trimming loop starts at
candidate length `target_width` and is maximal below it), continues on the
remainder until it fits, appends the final remainder as the last line, the
lines concatenate back to the whole description, and the wrapped lines are
joined with a newline followed by exactly `name_column_width + 3`
spaces. -/
theorem C4_greedy_wrap_amended (target_width : Int) (h10 : 10 < target_width)
    (s : List Char) :
    (target_width < wcswidth s →
      wrap_summary target_width h10 s =
        s.take (trim_length s target_width target_width.toNat) ::
          wrap_summary target_width h10
            (s.drop (trim_length s target_width target_width.toNat)) ∧
      trim_length s target_width target_width.toNat ≤ target_width.toNat ∧
      wcswidth (s.take (trim_length s target_width target_width.toNat)) ≤
        target_width ∧
      (∀ m, trim_length s target_width target_width.toNat < m →
        m ≤ target_width.toNat → target_width < wcswidth (s.take m))) ∧
    (wcswidth s ≤ target_width → wrap_summary target_width h10 s = [s]) ∧
    (wrap_summary target_width h10 s).foldr List.append [] = s ∧
    ∀ (name_column_width terminal_width : Int) (desc : List Char)
      (h : 10 < terminal_width - name_column_width - 5),
      rendered_summary name_column_width terminal_width desc =
        join_sep ('\n' :: List.replicate (name_column_width + 3).toNat ' ')
          (wrap_summary (terminal_width - name_column_width - 5) h desc) := by
  refine ⟨?_, ?_, ?_, ?_⟩
  · intro hw
    exact ⟨wrap_summary_step target_width h10 s hw,
      trim_length_le s target_width target_width.toNat,
      trim_length_fits s target_width (by omega) target_width.toNat,
      trim_length_maximal s target_width target_width.toNat⟩
  · intro hfit
    exact wrap_summary_last target_width h10 s (by omega)
  · exact wrap_summary_concat target_width h10 s.length s le_rfl
  · intro name_column_width terminal_width desc h
    exact rendered_summary_wide name_column_width terminal_width desc h

/-- Witness for the amended C4: target width 16 on the sample
description. -/
theorem C4_greedy_wrap_amended_witness :
    (10:Int) < 16 ∧
    (((16:Int) < wcswidth c4_desc →
      wrap_summary 16 (by norm_num) c4_desc =
        c4_desc.take (trim_length c4_desc 16 (16:Int).toNat) ::
          wrap_summary 16 (by norm_num)
            (c4_desc.drop (trim_length c4_desc 16 (16:Int).toNat)) ∧
      trim_length c4_desc 16 (16:Int).toNat ≤ (16:Int).toNat ∧
      wcswidth (c4_desc.take (trim_length c4_desc 16 (16:Int).toNat)) ≤ 16 ∧
      (∀ m, trim_length c4_desc 16 (16:Int).toNat < m → m ≤ (16:Int).toNat →
        (16:Int) < wcswidth (c4_desc.take m))) ∧
    (wcswidth c4_desc ≤ 16 → wrap_summary 16 (by norm_num) c4_desc = [c4_desc]) ∧
    (wrap_summary 16 (by norm_num) c4_desc).foldr List.append [] = c4_desc ∧
    ∀ (name_column_width terminal_width : Int) (desc : List Char)
      (h : 10 < terminal_width - name_column_width - 5),
      rendered_summary name_column_width terminal_width desc =
        join_sep ('\n' :: List.replicate (name_column_width + 3).toNat ' ')
          (wrap_summary (terminal_width - name_column_width - 5) h desc)) :=
  ⟨by norm_num, C4_greedy_wrap_amended 16 (by norm_num) c4_desc⟩

set_option maxRecDepth 16384 in
/-- C6: for every record (of any of the three variants) the emitted line is
the label `"{name} ({project_link})"` left-padded with spaces to
`name_column_width` display width (not character count), followed by
`" - "`, followed by the wrapped description; and the worked example —
records a/x and bb/yy with explicit name column width 20 and terminal
width 80 — yields exactly two lines, each label padded to width 20 and
followed by `" - short"`. -/
theorem C6_label_padding_layout :
    (∀ (name_column_width terminal_width : Int) (hit : Adapter),
      render_line name_column_width terminal_width hit =
        hit_label hit ++
          List.replicate (name_column_width - wcswidth (hit_label hit)).toNat ' ' ++
          (" - ").data ++
          rendered_summary name_column_width terminal_width
            (PackageInfo.desc hit).data) ∧
    (∀ (name_column_width terminal_width : Int) (hit : Plugin),
      render_line name_column_width terminal_width hit =
        hit_label hit ++
          List.replicate (name_column_width - wcswidth (hit_label hit)).toNat ' ' ++
          (" - ").data ++
          rendered_summary name_column_width terminal_width
            (PackageInfo.desc hit).data) ∧
    (∀ (name_column_width terminal_width : Int) (hit : Driver),
      render_line name_column_width terminal_width hit =
        hit_label hit ++
          List.replicate (name_column_width - wcswidth (hit_label hit)).toNat ' ' ++
          (" - ").data ++
          rendered_summary name_column_width terminal_width
            (PackageInfo.desc hit).data) ∧
    format_package_results sample_hits (some 20) (some 80) 0 =
      "a (x)                - short\nbb (yy)              - short" := by
  refine ⟨fun n t hit => rfl, fun n t hit => rfl, fun n t hit => rfl, ?_⟩
  have hr1 : render_line (α := Adapter) 20 80 ⟨"a", "adapters", "x", "short"⟩ =
      ("a (x)").data ++ List.replicate 15 ' ' ++ (" - ").data ++ ("short").data := by
    unfold render_line
    rw [rendered_summary_of_fits 20 80
      ((PackageInfo.desc (⟨"a", "adapters", "x", "short"⟩ : Adapter)).data)
      (by decide)]
    decide
  have hr2 : render_line (α := Adapter) 20 80 ⟨"bb", "adapters", "yy", "short"⟩ =
      ("bb (yy)").data ++ List.replicate 13 ' ' ++ (" - ").data ++ ("short").data := by
    unfold render_line
    rw [rendered_summary_of_fits 20 80
      ((PackageInfo.desc (⟨"bb", "adapters", "yy", "short"⟩ : Adapter)).data)
      (by decide)]
    decide
  simp only [format_package_results, sample_hits, List.map_cons, List.map_nil]
  rw [hr1, hr2]
  decide
